import Mathlib

/-!
Shallow embedding of the AutoDubber backend (src/backend/main.py): the job
registry and its update protocol, the WebSocket broadcast hub, the progress
inference engine (ProgressCapture), and the pipeline orchestrator traces.
Python floats for `progress` and `speed_factor` are modelled as exact
rationals; the job dict is modelled as a structure whose fields are the keys
the code actually stores (including the `_elevenlabs_api_key` entry).
-/

namespace AutoDubber

/-- One transcription segment: a dict with keys start, end, text. -/
structure Segment where
  tStart : ℚ
  tEnd : ℚ
  text : String
deriving DecidableEq, Repr

/-- The job record: the keys stored in the `jobs[job_id]` dict in main.py.
`elevenlabs_api_key` models the `_elevenlabs_api_key` dict entry. -/
structure JobRecord where
  job_id : String
  filename : String
  status : String
  progress : ℚ
  created_at : String
  finished_at : Option String := none
  error : Option String := none
  video_path : Option String := none
  audio_path : Option String := none
  srt_path : Option String := none
  transcription : Option (List Segment) := none
  voice_id : Option String := none
  speed_factor : ℚ := 1
  current_activity : Option String := none
  elevenlabs_api_key : Option String := none
deriving DecidableEq, Repr

/-- Python truthiness of an optional string (`if s:`): present and non-empty. -/
def truthyStr : Option String → Bool
  | none => false
  | some s => !s.isEmpty

/-- Python `abs` on a rational (kernel-computable). -/
def ratAbs (x : ℚ) : ℚ := if x < 0 then -x else x

/-- Python two-argument `min` on rationals (kernel-computable). -/
def ratMin (a b : ℚ) : ℚ := if a ≤ b then a else b

/-- The keyword arguments of `update_job_status` in main.py; `none` models an
argument that was not passed.  The trailing fields model the `**kwargs`
actually used at the call sites (speed_factor, transcription, srt_path,
audio_path, video_path). -/
structure UpdateArgs where
  status : String
  progress : Option ℚ := none
  error : Option String := none
  finished_at : Option String := none
  current_activity : Option String := none
  speed_factor : Option ℚ := none
  transcription : Option (List Segment) := none
  srt_path : Option String := none
  audio_path : Option String := none
  video_path : Option String := none
deriving DecidableEq, Repr

/-- The "meaningful update" test of `update_job_status` (main.py:158-167):
`has_status_change or has_progress_change or has_activity_change`. -/
def update_is_meaningful (j : JobRecord) (a : UpdateArgs) : Bool :=
  (a.status != j.status) ||
    (a.progress.any fun p => decide (1 ≤ ratAbs (p - j.progress))) ||
    (a.current_activity.any fun s => s != j.current_activity.getD "")

/-- The mutation block of `update_job_status` (main.py:172-184): the status is
always written, the optional fields under the code's own (truthiness)
conditions, and the kwargs unconditionally. -/
def apply_update (j : JobRecord) (a : UpdateArgs) : JobRecord :=
  { j with
    status := a.status
    progress := a.progress.getD j.progress
    error := if truthyStr a.error then a.error else j.error
    finished_at := if truthyStr a.finished_at then a.finished_at else j.finished_at
    current_activity :=
      if truthyStr a.current_activity then a.current_activity else j.current_activity
    speed_factor := a.speed_factor.getD j.speed_factor
    transcription := a.transcription.or j.transcription
    srt_path := a.srt_path.or j.srt_path
    audio_path := a.audio_path.or j.audio_path
    video_path := a.video_path.or j.video_path }

/-- `update_job_status` (main.py:143-194) acting on one job record: runs the
mutation block only when the update is meaningful, else leaves the record
untouched. -/
def update_job_status (j : JobRecord) (a : UpdateArgs) : JobRecord :=
  if update_is_meaningful j a then apply_update j a else j

/-! ### Progress inference engine (ProgressCapture, main.py:198-330) -/

/-- ASCII lowercasing of a character code, as Python `str.lower()` acts on the
ASCII strings involved here. -/
def lowerCode (n : Nat) : Nat := if 65 ≤ n ∧ n ≤ 90 then n + 32 else n

/-- Case-insensitive character equality (ASCII). -/
def charEqCI (a b : Char) : Bool := lowerCode a.toNat == lowerCode b.toNat

/-- Does `hay` start with `needle`, case-insensitively? -/
def startsCI : List Char → List Char → Bool
  | [], _ => true
  | _ :: _, [] => false
  | a :: as, b :: bs => charEqCI a b && startsCI as bs

/-- Does `needle` occur as a contiguous run inside `hay`, case-insensitively?
Models Python `needle.lower() in hay.lower()`. -/
def hasRunCI (needle : List Char) : List Char → Bool
  | [] => startsCI needle []
  | b :: bs => startsCI needle (b :: bs) || hasRunCI needle bs

/-- `needle.lower() in hay.lower()` on strings. -/
def containsCI (hay needle : String) : Bool := hasRunCI needle.toList hay.toList

/-- The ordered phrase-fragment table of `ProgressCapture._send_batched_updates`
(main.py:253-273); iteration order is dict insertion order. -/
def progress_indicators : List (String × ℚ) :=
  [("audio extraction", 10),
   ("extracting audio", 5),
   ("extracted audio", 15),
   ("loading whisper", 18),
   ("whisper model loaded", 20),
   ("beginning transcription", 25),
   ("transcribing", 30),
   ("transcription completed", 40),
   ("generating tts", 45),
   ("tts generating segment", 55),
   ("voiceover assembly", 70),
   ("voiceover assembly completed", 80),
   ("creating final video", 85),
   ("encoding final video", 95),
   ("completed successfully", 100)]

/-- The fallback mapping of job status to a default percentage
(main.py:287-297). -/
def status_progress_map : List (String × ℚ) :=
  [("extracting_audio", 8),
   ("transcribing", 25),
   ("transcription_complete", 40),
   ("transcription_confirmed", 45),
   ("generating_tts", 60),
   ("creating_voiceover", 75),
   ("creating_video", 90),
   ("adjusting_speed", 85),
   ("creating_adjusted_video", 95)]

/-- The mutable per-capture state of a `ProgressCapture` instance. -/
structure CaptureState where
  last_progress : ℚ := 0
  batched_messages : List String := []
deriving DecidableEq, Repr

/-- The progress value computed by `_send_batched_updates` (main.py:244-315)
for the representative (most recent) buffered line: first an in-order scan of
the phrase table, then the status-default fallback, then the +1 increment
capped at 99; finally the value is emitted only if strictly greater than the
last emitted one, otherwise progress is left absent. -/
def flushProgress (c : CaptureState) (most_recent : String) (jobStatus : String) : Option ℚ :=
  let fromTable : Option ℚ :=
    (progress_indicators.find? fun iv => containsCI most_recent iv.1).map (·.2)
  let p1 : Option ℚ :=
    match fromTable with
    | some v => some v
    | none =>
      let fromStatus : Option ℚ :=
        match status_progress_map.lookup jobStatus with
        | some d => if c.last_progress < d then some d else none
        | none => none
      match fromStatus with
      | some d => some d
      | none =>
        if c.last_progress < 99 then some (ratMin (c.last_progress + 1) 99) else none
  match p1 with
  | some p => if c.last_progress < p then some p else none
  | none => none

/-- `_send_batched_updates`: flush the buffered narration lines into at most
one `update_job_status` call whose activity is the most recent line, then
reset the buffer.  Empty buffer is a no-op. -/
def send_batched_updates (c : CaptureState) (j : JobRecord) : CaptureState × JobRecord :=
  match c.batched_messages.getLast? with
  | none => (c, j)
  | some most_recent =>
    let p := flushProgress c most_recent j.status
    let c2 : CaptureState := { last_progress := p.getD c.last_progress, batched_messages := [] }
    let j2 := update_job_status j
      { status := j.status, progress := p, current_activity := some most_recent }
    (c2, j2)

/-- The `"ERROR:"` branch of `ProgressCapture.write` (main.py:229-236): the
extracted error text is handed to `update_job_status` with the job's current
status and no progress/activity arguments. -/
def capture_error_line (j : JobRecord) (error_msg : String) : JobRecord :=
  update_job_status j { status := j.status, error := some error_msg }

/-! ### Broadcast hub and WebSocket endpoint (main.py:116-131, 545-710) -/

/-- A live observer connection; `healthy` says whether `send_json` succeeds
(an unhealthy connection always raises, which the hub catches). -/
structure WsConn where
  cid : Nat
  healthy : Bool
deriving DecidableEq, Repr

/-- The send loop of `broadcast_job_update` (main.py:123-127): try to send
`data` to each connection in order; an exception is caught and logged and the
loop continues.  Returns the deliveries that succeeded. -/
def broadcastSends (data : JobRecord) : List WsConn → List (Nat × JobRecord)
  | [] => []
  | c :: cs =>
    if c.healthy then (c.cid, data) :: broadcastSends data cs
    else broadcastSends data cs

/-- `broadcast_job_update` (main.py:116-131): a publish to a job id.  With no
registered connections it is a logged no-op; otherwise it runs the send loop
over the current subscriber list.  The function never mutates the subscriber
list, so the publish returns it unchanged. -/
def broadcast_job_update (conns : Option (List WsConn)) (data : JobRecord) :
    List (Nat × JobRecord) × Option (List WsConn) :=
  match conns with
  | none => ([], none)
  | some cs => (broadcastSends data cs, some cs)

/-- The heartbeat ping payload (main.py:677-686): a dict with only type,
job_id, status, progress, current_activity and timestamp keys. -/
structure PingMsg where
  job_id : String
  status : String
  progress : ℚ
  current_activity : String
  timestamp : String
deriving DecidableEq, Repr

/-- `keep_connection_alive`'s per-tick ping for an existing job
(main.py:668-686). -/
def heartbeat_ping (j : JobRecord) (ts : String) : PingMsg :=
  { job_id := j.job_id
    status := j.status
    progress := j.progress
    current_activity := j.current_activity.getD ""
    timestamp := ts }

/-- Erase the stored provider credential from a record (not an operation of
the code; used to state what the ping does and does not depend on). -/
def scrubCredential (j : JobRecord) : JobRecord := { j with elevenlabs_api_key := none }

/-- The status → human-readable message table `statusMessages`
(main.py:99-112). -/
def statusMessages : List (String × String) :=
  [("uploaded", "File uploaded, waiting to process"),
   ("extracting_audio", "Extracting audio from video"),
   ("transcribing", "Transcribing audio with Whisper AI"),
   ("transcription_complete", "Transcription ready for review"),
   ("transcription_confirmed", "Generating AI voiceover"),
   ("generating_tts", "Generating AI voiceover with ElevenLabs"),
   ("creating_voiceover", "Assembling audio segments"),
   ("creating_video", "Creating final video with voiceover"),
   ("adjusting_speed", "Adjusting audio speed"),
   ("creating_adjusted_video", "Creating video with adjusted audio"),
   ("completed", "Processing complete"),
   ("error", "Error occurred during processing")]

/-- The initial-state part of `websocket_endpoint` for an existing job
(main.py:562-595): fill in a missing/empty `current_activity` from
`statusMessages`, send the record, and — when the status is not terminal —
bump the stored progress by `min(1, (100 - progress) * 0.05)` and send the
record again.  Returns the job record as stored afterwards together with the
list of full-state messages sent. -/
def websocket_attach (j : JobRecord) : JobRecord × List JobRecord :=
  let fallbackAct := (statusMessages.lookup j.status).getD ("Processing in " ++ j.status ++ " stage")
  let j0 :=
    if truthyStr j.current_activity then j
    else { j with current_activity := some fallbackAct }
  if j0.status = "completed" ∨ j0.status = "error" then (j0, [j0])
  else
    let j1 := { j0 with progress := j0.progress + ratMin 1 ((100 - j0.progress) * mkRat 5 100) }
    (j1, [j0, j1])

/-- The payload of an inbound `update_transcription` control message
(main.py:609-614): `transcription` absent models `message.get` returning
`None`; `speed_factor` absent models the 1.0 default. -/
structure WsMsg where
  transcription : Option (List Segment) := none
  speed_factor : Option ℚ := none
deriving DecidableEq, Repr

/-- The `update_transcription` branch of `websocket_endpoint`
(main.py:609-634), for an existing job: if the supplied transcription is
truthy (present and non-empty) the handler directly sets the transcription,
status, progress and activity — with no check of the current status — and
stores a truthy speed factor; otherwise nothing changes. -/
def ws_update_transcription (j : JobRecord) (m : WsMsg) : JobRecord :=
  let sf := m.speed_factor.getD 1
  match m.transcription with
  | none => j
  | some tr =>
    if tr.isEmpty then j
    else
      let j1 := { j with
        transcription := some tr
        status := "transcription_confirmed"
        progress := 45
        current_activity :=
          some "Transcription confirmed, proceeding with voiceover generation" }
      if sf ≠ 0 then { j1 with speed_factor := sf } else j1

/-! ### HTTP endpoints (main.py:713-870, 1053-1100) -/

/-- `is_valid_elevenlabs_api_key` (main.py:526-536). -/
def is_valid_elevenlabs_api_key (api_key : String) : Bool :=
  !(api_key.isEmpty || api_key.length < 32)

/-- Does the lowercased string end with the given ASCII string?  Models
Python `s.lower().endswith(suffixString)`. -/
def endsWithCI (s suff : String) : Bool := startsCI suff.toList.reverse s.toList.reverse

/-- The inputs of `upload_video` (main.py:713-721). -/
structure UploadReq where
  filename : String
  voice_id : String := "21m00Tcm4TlvDq8ikWAM"
  elevenlabs_api_key : Option String := none
  speed_factor : ℚ := 1
  xi_api_key : Option String := none
deriving DecidableEq, Repr

/-- `upload_video` (main.py:713-795): validate the key, the speed factor and
the file extension, then create the job record — which stores the provider
credential under the `_elevenlabs_api_key` key — and broadcast that record.
Returns the created record or the HTTP error (status code, detail). -/
def upload_video (r : UploadReq) (job_id created_at : String) :
    Except (Nat × String) JobRecord :=
  let api_key : Option String := if truthyStr r.xi_api_key then r.xi_api_key else r.elevenlabs_api_key
  match api_key with
  | none => .error (400, "ElevenLabs API key is required. Provide it via xi-api-key header or form field.")
  | some key =>
    if !key.isEmpty then
      if r.speed_factor < mkRat 7 10 ∨ mkRat 12 10 < r.speed_factor then
        .error (400, "Speed factor must be between 0.7 and 1.2.")
      else if !is_valid_elevenlabs_api_key key then
        .error (400, "Invalid ElevenLabs API key format. Please provide a valid API key.")
      else if !(endsWithCI r.filename ".mp4" || endsWithCI r.filename ".mov" ||
                endsWithCI r.filename ".avi" || endsWithCI r.filename ".webm") then
        .error (400, "Unsupported file format. Please upload MP4, MOV, AVI, or WEBM.")
      else
        .ok { job_id := job_id
              filename := r.filename
              status := "uploaded"
              progress := 0
              created_at := created_at
              voice_id := some r.voice_id
              speed_factor := r.speed_factor
              current_activity := some "File uploaded, waiting to start processing"
              elevenlabs_api_key := some key }
    else
      .error (400, "ElevenLabs API key is required. Provide it via xi-api-key header or form field.")

/-- `get_all_jobs` (main.py:798-801): returns the raw `jobs` dict. -/
def get_all_jobs (jobs : List (String × JobRecord)) : List (String × JobRecord) := jobs

/-- `get_job` (main.py:804-809): returns the raw job record or 404. -/
def get_job (jobs : List (String × JobRecord)) (job_id : String) :
    Except (Nat × String) JobRecord :=
  match jobs.lookup job_id with
  | none => .error (404, "Job not found")
  | some j => .ok j

/-- The filesystem facts `update_job_transcription` and `adjust_audio_speed`
consult: whether a `{job_id}_*` file exists under the upload directory. -/
structure FsEnv where
  videoFound : Bool
deriving DecidableEq, Repr

/-- `update_job_transcription` (main.py:812-870), the HTTP confirmation
endpoint.  It rejects a missing job (404) and a job whose status is not
`transcription_complete` (400) before any mutation; otherwise it overwrites
the stored transcription with the supplied list (no emptiness check), saves
the SRT file, and runs the `transcription_confirmed` status update.  The
later 404/500 raises happen after the mutation, so the function returns the
job record as stored afterwards alongside the HTTP outcome. -/
def update_job_transcription (env : FsEnv) (j : Option JobRecord)
    (transcription : List Segment) :
    Option JobRecord × Except (Nat × String) String :=
  match j with
  | none => (none, .error (404, "Job not found"))
  | some j =>
    if j.status ≠ "transcription_complete" then
      (some j, .error (400, "Job not in transcription phase"))
    else
      let j1 := { j with transcription := some transcription }
      let j2 := update_job_status j1
        { status := "transcription_confirmed", progress := some 45,
          current_activity := some "Transcription confirmed, proceeding with voiceover generation" }
      if !env.videoFound then
        (some j2, .error (404, "Original video file not found for this job"))
      else if !truthyStr j2.elevenlabs_api_key then
        (some j2, .error (500, "API key not available"))
      else
        (some j2, .ok "Transcription updated, processing resumed")

/-- `adjust_audio_speed` (main.py:1053-1100), the speed-adjustment endpoint:
rejects a missing job, a non-`completed` status, a non-positive factor, a
missing audio path and a missing video file — all before mutation — then
enters the branch with `update_job_status(job_id, "adjusting_speed",
progress=0)`. -/
def adjust_audio_speed (env : FsEnv) (j : Option JobRecord) (speed_factor : ℚ) :
    Option JobRecord × Except (Nat × String) String :=
  match j with
  | none => (none, .error (404, "Job not found"))
  | some j =>
    if j.status ≠ "completed" then
      (some j, .error (400, "Job must be completed before adjusting speed"))
    else if speed_factor ≤ 0 then
      (some j, .error (400, "Speed factor must be greater than 0"))
    else if !truthyStr j.audio_path then
      (some j, .error (404, "Audio file not found for this job"))
    else if !env.videoFound then
      (some j, .error (404, "Original video file not found for this job"))
    else
      (some (update_job_status j { status := "adjusting_speed", progress := some 0 }),
       .ok "Speed adjustment started")

/-! ### Pipeline orchestrator traces (main.py:334-523, 873-998, 1103-1194)

Each background task is embedded as a function from the outcomes of its
external collaborator calls to the sequence of registry states left by its
successive `update_job_status` calls (the states the broadcast hub publishes,
in order).  `Option String` collaborator fields hold the exception message
when the call raises. -/

/-- Outcomes of the collaborator calls made by `process_video`: audio
extraction (raises or succeeds) and transcription (raises or returns a
segment list), plus the timestamp `datetime.now().isoformat()` used at a
terminal transition. -/
structure PipelineEnv where
  extract : Option String := none
  transcribe : Except String (List Segment) := .ok []
  now : String := "1970-01-01T00:00:00"
deriving Repr

/-- The `except` handler of `process_video` and `continue_video_processing`
(main.py:514-523, 989-998): status `error`, progress reset to 0, the message
recorded, and the finish timestamp written. -/
def pipeline_error_update (now msg : String) (j : JobRecord) : JobRecord :=
  update_job_status j
    { status := "error", progress := some 0, error := some msg,
      finished_at := some now, current_activity := some ("Error: " ++ msg) }

/-- `process_video` (main.py:334-523) up to its mid-function `return` at the
confirmation checkpoint: the successive registry states after each
`update_job_status` call.  An empty transcription raises
`"No speech detected in the video"` (main.py:381-382). -/
def process_video (env : PipelineEnv) (speed_factor : ℚ) (j : JobRecord) :
    List JobRecord :=
  let j1 := update_job_status j
    { status := "extracting_audio", progress := some 10,
      speed_factor := some speed_factor,
      current_activity := some "Starting audio extraction from video" }
  match env.extract with
  | some msg => [j1, pipeline_error_update env.now msg j1]
  | none =>
    let j2 := update_job_status j1
      { status := "transcribing", progress := some 20,
        audio_path := some ("media/temp/" ++ j.job_id ++ "_audio.wav"),
        current_activity := some "Transcribing audio with Whisper AI" }
    match env.transcribe with
    | .error msg => [j1, j2, pipeline_error_update env.now msg j2]
    | .ok segments =>
      if segments.isEmpty then
        [j1, j2, pipeline_error_update env.now "No speech detected in the video" j2]
      else
        let j3 := update_job_status j2
          { status := "transcription_complete", progress := some 40,
            transcription := some segments,
            srt_path := some ("media/temp/" ++ j.job_id ++ "_subtitles.srt"),
            current_activity := some "Transcription ready for review" }
        [j1, j2, j3]

/-- Outcomes of the collaborator calls made by `continue_video_processing`:
TTS generation (raises, or returns clip info whose emptiness raises
`"Failed to generate TTS audio"`), voiceover assembly/audio write, and final
video creation. -/
structure ContinueEnv where
  tts : Except String (List Nat) := .ok [0]
  assemble : Option String := none
  mux : Option String := none
  now : String := "1970-01-01T00:00:00"
deriving Repr

/-- `continue_video_processing` (main.py:873-998): the successive registry
states after each `update_job_status` call, resuming a confirmed job. -/
def continue_video_processing (env : ContinueEnv) (speed_factor : ℚ) (j : JobRecord) :
    List JobRecord :=
  let j1 := update_job_status j
    { status := "generating_tts", progress := some 50,
      current_activity := some ("Generating AI voiceover with speed factor " ++ toString speed_factor) }
  match env.tts with
  | .error msg => [j1, pipeline_error_update env.now msg j1]
  | .ok tts_clips_info =>
    if tts_clips_info.isEmpty then
      [j1, pipeline_error_update env.now "Failed to generate TTS audio" j1]
    else
      let j2 := update_job_status j1
        { status := "creating_voiceover", progress := some 80,
          current_activity := some "Assembling audio segments into complete voiceover" }
      match env.assemble with
      | some msg => [j1, j2, pipeline_error_update env.now msg j2]
      | none =>
        let j3 := update_job_status j2
          { status := "creating_video", progress := some 90,
            current_activity := some "Creating final video with voiceover" }
        match env.mux with
        | some msg => [j1, j2, j3, pipeline_error_update env.now msg j3]
        | none =>
          let j4 := update_job_status j3
            { status := "completed", progress := some 100,
              finished_at := some env.now,
              video_path := some ("/media/outputs/" ++ j.job_id ++ "_output.mp4"),
              audio_path := some ("/media/outputs/" ++ j.job_id ++ "_audio_only.mp3"),
              speed_factor := some speed_factor,
              current_activity := some "Processing completed successfully" }
          [j1, j2, j3, j4]

/-- Outcomes of the collaborator calls made by `process_speed_adjustment`:
the audio speed change / audio write, and the adjusted video write. -/
structure SpeedEnv where
  audioFx : Option String := none
  vid : Option String := none
deriving DecidableEq, Repr

/-- The `except` handler of `process_speed_adjustment` (main.py:1186-1194):
status `error` and progress 0 with a prefixed message — and no
`finished_at` argument. -/
def speed_error_update (msg : String) (j : JobRecord) : JobRecord :=
  update_job_status j
    { status := "error", progress := some 0,
      error := some ("Speed adjustment failed: " ++ msg),
      current_activity := some ("Error: Speed adjustment failed - " ++ msg) }

/-- `process_speed_adjustment` (main.py:1103-1194): the successive registry
states after each `update_job_status` call of the post-completion
speed-adjustment branch.  Neither its completion update nor its error update
passes a `finished_at` argument. -/
def process_speed_adjustment (env : SpeedEnv) (speed_factor : ℚ) (j : JobRecord) :
    List JobRecord :=
  let j1 := update_job_status j
    { status := "adjusting_speed", progress := some 10,
      current_activity := some ("Adjusting audio speed to " ++ toString (speed_factor * 100) ++ "%") }
  match env.audioFx with
  | some msg => [j1, speed_error_update msg j1]
  | none =>
    let j2 := update_job_status j1
      { status := "creating_adjusted_video", progress := some 50,
        current_activity := some "Creating new video with adjusted audio speed" }
    match env.vid with
    | some msg => [j1, j2, speed_error_update msg j2]
    | none =>
      let j3 := update_job_status j2
        { status := "completed", progress := some 100,
          audio_path := some ("/media/outputs/" ++ j.job_id ++ "_speed_audio.mp3"),
          video_path := some ("/media/outputs/" ++ j.job_id ++ "_speed_video.mp4"),
          speed_factor := some speed_factor,
          current_activity := some "Speed adjustment completed successfully" }
      [j1, j2, j3]

/-! ### Concrete fixtures: one job pushed through the pipeline -/

/-- A one-segment transcription. -/
def seg1 : Segment := { tStart := 0, tEnd := 2, text := "hello" }

/-- A 32-character provider credential. -/
def key0 : String := "abcdefghabcdefghabcdefghabcdefgh"

/-- A well-formed upload request. -/
def req0 : UploadReq := { filename := "demo.mp4", xi_api_key := some key0 }

/-- The job record `upload_video req0` creates. -/
def uploadedJob : JobRecord :=
  { job_id := "job-1"
    filename := "demo.mp4"
    status := "uploaded"
    progress := 0
    created_at := "2024-01-01T00:00:00"
    voice_id := some "21m00Tcm4TlvDq8ikWAM"
    speed_factor := 1
    current_activity := some "File uploaded, waiting to start processing"
    elevenlabs_api_key := some key0 }

/-- Collaborators succeed and transcription returns one segment. -/
def envOkTranscribe : PipelineEnv :=
  { transcribe := .ok [seg1], now := "2024-01-01T00:10:00" }

/-- The job as stored right after the first orchestrator checkpoint: status
`extracting_audio`, progress 10. -/
def extractingJob : JobRecord :=
  ((process_video envOkTranscribe 1 uploadedJob).head?).getD uploadedJob

/-- Collaborators succeed but transcription returns zero segments. -/
def envNoSpeech : PipelineEnv :=
  { transcribe := .ok [], now := "2024-01-01T00:10:00" }

/-- The job as stored at the confirmation checkpoint: the last registry state
of a successful `process_video` run. -/
def awaitingJob : JobRecord :=
  ((process_video envOkTranscribe 1 uploadedJob).getLast?).getD uploadedJob

/-- The job as stored after the HTTP confirmation endpoint accepts the
(unchanged) transcription. -/
def confirmedJob : JobRecord :=
  ((update_job_transcription ⟨true⟩ (some awaitingJob) [seg1]).1).getD uploadedJob

/-- All continuation collaborators succeed. -/
def contEnvOk : ContinueEnv := { now := "2024-01-01T00:20:00" }

/-- The job as stored after the continuation runs to completion. -/
def completedJob : JobRecord :=
  ((continue_video_processing contEnvOk 1 confirmedJob).getLast?).getD uploadedJob

/-- Along a sequence of published registry states, any decrease of the
progress value happens only at a record whose status is `error` or
`adjusting_speed` (the two progress-reset points of the code). -/
def progress_drop_resets (l : List JobRecord) : Prop :=
  List.Chain'
    (fun a b => b.progress < a.progress → b.status = "error" ∨ b.status = "adjusting_speed") l

/-! ### Helper lemmas about the update protocol -/

/-- When the status argument differs from the stored status the mutation block
of `update_job_status` runs, and each field is written under the code's own
conditions. -/
theorem update_job_status_fires (j : JobRecord) (a : UpdateArgs) (h : a.status ≠ j.status) :
    update_job_status j a = apply_update j a := by
  have hb : update_is_meaningful j a = true := by
    have : (a.status != j.status) = true := by simpa [bne_iff_ne] using h
    simp [update_is_meaningful, this]
  simp [update_job_status, hb]

/-- When the progress argument moves the stored value by at least 1 the
mutation block of `update_job_status` runs even with an unchanged status. -/
theorem update_job_status_fires_progress (j : JobRecord) (a : UpdateArgs) (p : ℚ)
    (hp : a.progress = some p) (h : 1 ≤ ratAbs (p - j.progress)) :
    update_job_status j a = apply_update j a := by
  have hb : update_is_meaningful j a = true := by
    simp [update_is_meaningful, hp, h]
  simp [update_job_status, hb]

/-- `update_job_status` never writes `finished_at` unless the argument was
passed: with no `finished_at` argument the stored value survives both the
mutation branch and the no-op branch. -/
theorem update_job_status_keeps_finished_at (j : JobRecord) (a : UpdateArgs)
    (h : a.finished_at = none) :
    (update_job_status j a).finished_at = j.finished_at := by
  unfold update_job_status
  by_cases hc : update_is_meaningful j a = true
  · simp [hc, apply_update, h, truthyStr]
  · simp [hc]

/-- `update_job_status` never clears a set `finished_at`. -/
theorem update_job_status_finished_at_mono (j : JobRecord) (a : UpdateArgs)
    (h : j.finished_at.isSome) :
    (update_job_status j a).finished_at.isSome := by
  unfold update_job_status
  by_cases hc : update_is_meaningful j a = true
  · simp only [hc, if_true, apply_update]
    cases hf : a.finished_at with
    | none => simpa [truthyStr, hf] using h
    | some s =>
      by_cases hs : s.isEmpty
      · simpa [truthyStr, hf, hs] using h
      · simp [truthyStr, hf, hs]
  · simp [hc, h]

/-- Every delivery made by the broadcast send loop carries the full record,
verbatim. -/
theorem broadcastSends_payload_eq (d : JobRecord) (cs : List WsConn) :
    ∀ p ∈ broadcastSends d cs, p.2 = d := by
  induction cs with
  | nil => intro p hp; simp [broadcastSends] at hp
  | cons c cs ih =>
    intro p hp
    by_cases hc : c.healthy = true
    · rw [broadcastSends, if_pos hc] at hp
      rcases List.mem_cons.mp hp with h | h
      · rw [h]
      · exact ih p h
    · rw [broadcastSends, if_neg hc] at hp
      exact ih p hp

/-- Every healthy connection receives the record from the broadcast send
loop, whatever other connections fail. -/
theorem broadcastSends_delivers (d : JobRecord) (cs : List WsConn) :
    ∀ c ∈ cs, c.healthy = true → (c.cid, d) ∈ broadcastSends d cs := by
  induction cs with
  | nil => intro c hc; simp at hc
  | cons c0 cs ih =>
    intro c hc hh
    rcases List.mem_cons.mp hc with rfl | hmem
    · rw [broadcastSends, if_pos hh]
      exact List.mem_cons_self _ _
    · by_cases h0 : c0.healthy = true
      · rw [broadcastSends, if_pos h0]
        exact List.mem_cons_of_mem _ (ih c hmem hh)
      · rw [broadcastSends, if_neg h0]
        exact ih c hmem hh

/-! ### Claim theorems -/

/-- Claim C1, counterexample: a job created by `upload_video` stores the
provider credential, and the very record handed to the broadcast path and
returned by the fetch-one-job query carries that credential — so the
credential does appear in broadcast messages and query responses. -/
theorem C1_counterexample :
    (upload_video req0 "job-1" "2024-01-01T00:00:00").toOption = some uploadedJob ∧
    uploadedJob.elevenlabs_api_key = some key0 ∧
    ((broadcast_job_update (some [{ cid := 1, healthy := true }]) uploadedJob).1.map
      fun p => p.2.elevenlabs_api_key) = [some key0] ∧
    (get_job [("job-1", uploadedJob)] "job-1").toOption = some uploadedJob ∧
    get_all_jobs [("job-1", uploadedJob)] = [("job-1", uploadedJob)] := by
  decide

/-- Claim C1, amended: the broadcast/full-state path and the query endpoints
deliver the stored job record verbatim, credential field included; only the
heartbeat ping message is independent of the credential (it carries just
status, progress, activity and a timestamp). -/
theorem C1_credential_in_broadcasts_and_queries (cs : List WsConn) (d : JobRecord)
    (jobs : List (String × JobRecord)) (id : String) (j : JobRecord) (ts : String) :
    (∀ p ∈ (broadcast_job_update (some cs) d).1, p.2.elevenlabs_api_key = d.elevenlabs_api_key) ∧
    (jobs.lookup id = some j → get_job jobs id = .ok j) ∧
    (get_all_jobs jobs = jobs) ∧
    (heartbeat_ping d ts = heartbeat_ping (scrubCredential d) ts) := by
  refine ⟨?_, ?_, rfl, rfl⟩
  · intro p hp
    rw [broadcastSends_payload_eq d cs p hp]
  · intro h
    simp [get_job, h]

/-- Claim C1, amended, witness at a concrete registry and subscriber set. -/
theorem C1_credential_in_broadcasts_and_queries_witness :
    ((1, uploadedJob) ∈ (broadcast_job_update (some [{ cid := 1, healthy := true }]) uploadedJob).1 →
      uploadedJob.elevenlabs_api_key = uploadedJob.elevenlabs_api_key) ∧
    get_job [("job-1", uploadedJob)] "job-1" = .ok uploadedJob := by
  refine ⟨?_, ?_⟩
  · intro hp
    have h := (C1_credential_in_broadcasts_and_queries
      [{ cid := 1, healthy := true }] uploadedJob
      [("job-1", uploadedJob)] "job-1" uploadedJob "ts").1 (1, uploadedJob) hp
    exact h
  · exact (C1_credential_in_broadcasts_and_queries
      [{ cid := 1, healthy := true }] uploadedJob
      [("job-1", uploadedJob)] "job-1" uploadedJob "ts").2.1 (by decide)

/-- Claim C3, counterexample: publishing to three subscribers where the
second one's send fails delivers to the first and third — but the failing
connection is not removed: the subscriber set after the publish is unchanged
and still contains it. -/
theorem C3_counterexample :
    (broadcast_job_update
        (some [{ cid := 1, healthy := true }, { cid := 2, healthy := false },
               { cid := 3, healthy := true }]) uploadedJob).1 =
      [(1, uploadedJob), (3, uploadedJob)] ∧
    (broadcast_job_update
        (some [{ cid := 1, healthy := true }, { cid := 2, healthy := false },
               { cid := 3, healthy := true }]) uploadedJob).2 =
      some [{ cid := 1, healthy := true }, { cid := 2, healthy := false },
            { cid := 3, healthy := true }] ∧
    ({ cid := 2, healthy := false } : WsConn) ∈
      [({ cid := 1, healthy := true } : WsConn), { cid := 2, healthy := false },
       { cid := 3, healthy := true }] := by
  decide

/-- Claim C3, amended: a failing send is caught, every healthy subscriber
still receives the record and the publish completes — but the failing
connection stays in the subscriber set (it is only removed by the
connection handler on disconnect), so a subsequent publish attempts the
same set again. -/
theorem C3_publish_partial_failure (cs : List WsConn) (d d2 : JobRecord) :
    (∀ c ∈ cs, c.healthy = true → (c.cid, d) ∈ (broadcast_job_update (some cs) d).1) ∧
    ((broadcast_job_update (some cs) d).2 = some cs) ∧
    ((broadcast_job_update ((broadcast_job_update (some cs) d).2) d2).1 =
      broadcastSends d2 cs) := by
  exact ⟨fun c hc hh => broadcastSends_delivers d cs c hc hh, rfl, rfl⟩

/-- Claim C3, amended, witness: in the three-subscriber scenario the two
healthy connections receive the publish and the set is returned unchanged. -/
theorem C3_publish_partial_failure_witness :
    (1, uploadedJob) ∈ (broadcast_job_update
      (some [{ cid := 1, healthy := true }, { cid := 2, healthy := false },
             { cid := 3, healthy := true }]) uploadedJob).1 ∧
    (broadcast_job_update
      (some [{ cid := 1, healthy := true }, { cid := 2, healthy := false },
             { cid := 3, healthy := true }]) uploadedJob).2 =
      some [{ cid := 1, healthy := true }, { cid := 2, healthy := false },
            { cid := 3, healthy := true }] := by
  refine ⟨?_, ?_⟩
  · exact (C3_publish_partial_failure
      [{ cid := 1, healthy := true }, { cid := 2, healthy := false },
       { cid := 3, healthy := true }] uploadedJob uploadedJob).1
      { cid := 1, healthy := true } (by decide) (by decide)
  · exact (C3_publish_partial_failure
      [{ cid := 1, healthy := true }, { cid := 2, healthy := false },
       { cid := 3, healthy := true }] uploadedJob uploadedJob).2.1

/-- Claim C6: an intercepted error-marker line calls `update_job_status` with
the unchanged status and no progress/activity, so the meaningful-update test
fails and the whole mutation block — including the `error` write — is
skipped: the job record is left completely unchanged and the error text is
dropped, contrary to the code's own comment ("Update job with error
information"). -/
theorem C6_error_line_update_is_dropped (j : JobRecord) (msg : String) :
    capture_error_line j msg = j := by
  simp [capture_error_line, update_job_status, update_is_meaningful]

/-- A non-empty string is truthy. -/
theorem truthyStr_some_of_ne (s : String) (h : s ≠ "") : truthyStr (some s) = true := by
  have he : s.isEmpty = false := by
    rw [Bool.eq_false_iff]
    intro hc
    exact h ((String.isEmpty_iff s).mp hc)
  simp [truthyStr, he]

/-- The 0.05 literal of the subscribe-time progress bump. -/
theorem mkRat_5_100_eq : (mkRat 5 100 : ℚ) = 1 / 20 := by
  rw [Rat.mkRat_eq_divInt]
  norm_num [Rat.divInt_eq_div]

/-- Claim C10: attaching an observer to an existing non-terminal job mutates
the registry: the handler bumps the stored progress by
`min(1, (100 - progress) * 0.05)` before sending the second initial-state
message, and when the stored progress was at most 100 the bumped value still
is. -/
theorem C10_attach_bumps_progress (j : JobRecord)
    (h1 : j.status ≠ "completed") (h2 : j.status ≠ "error") :
    ((websocket_attach j).1.progress =
      j.progress + ratMin 1 ((100 - j.progress) * mkRat 5 100)) ∧
    ((websocket_attach j).2.length = 2) ∧
    (j.progress ≤ 100 → (websocket_attach j).1.progress ≤ 100) := by
  have hbound : j.progress ≤ 100 →
      j.progress + ratMin 1 ((100 - j.progress) * mkRat 5 100) ≤ 100 := by
    intro hp
    rw [mkRat_5_100_eq, ratMin]
    split
    · rename_i hle
      linarith
    · rename_i hgt
      linarith
  unfold websocket_attach
  by_cases hact : truthyStr j.current_activity = true
  · simp only [hact, if_true]
    rw [if_neg (by simp [h1, h2])]
    exact ⟨rfl, rfl, hbound⟩
  · simp only [hact, Bool.false_eq_true, if_false]
    rw [if_neg (by simp [h1, h2])]
    exact ⟨rfl, rfl, hbound⟩

/-- Claim C10, witness: attaching to the freshly uploaded job bumps its
stored progress from 0 to 1. -/
theorem C10_attach_bumps_progress_witness :
    ((websocket_attach uploadedJob).1.progress =
      uploadedJob.progress + ratMin 1 ((100 - uploadedJob.progress) * mkRat 5 100)) ∧
    ((websocket_attach uploadedJob).2.length = 2) ∧
    (uploadedJob.progress ≤ 100 → (websocket_attach uploadedJob).1.progress ≤ 100) :=
  C10_attach_bumps_progress uploadedJob (by decide) (by decide)

/-- Claim C9: flushing a batch whose lines are "Extracting audio..." then
"Extracted audio: x.wav" takes the most recent line as representative; the
first phrase-table entry (in table order) that occurs case-insensitively in
that line is "extracted audio" at 15, so — when the last emitted progress is
below 15 — the emitted update carries progress 15 and the capture watermark
becomes 15. -/
theorem C9_flush_extracted_audio_band (c : CaptureState) (j : JobRecord)
    (hb : c.batched_messages = ["Extracting audio...", "Extracted audio: x.wav"])
    (hl : c.last_progress < 15) :
    flushProgress c "Extracted audio: x.wav" j.status = some 15 ∧
    (send_batched_updates c j).1.last_progress = 15 ∧
    (send_batched_updates c j).2 = update_job_status j
      { status := j.status, progress := some 15,
        current_activity := some "Extracted audio: x.wav" } := by
  have hfind : (progress_indicators.find? fun iv => containsCI "Extracted audio: x.wav" iv.1) =
      some ("extracted audio", 15) := by decide
  have hlast : c.batched_messages.getLast? = some "Extracted audio: x.wav" := by
    rw [hb]; decide
  have h1 : flushProgress c "Extracted audio: x.wav" j.status = some 15 := by
    simp only [flushProgress, hfind, Option.map_some']
    rw [if_pos hl]
  refine ⟨h1, ?_, ?_⟩
  · simp [send_batched_updates, hlast, h1]
  · simp [send_batched_updates, hlast, h1]

/-- Claim C9, witness at a concrete capture state with watermark 10. -/
theorem C9_flush_extracted_audio_band_witness :
    flushProgress
        { last_progress := 10,
          batched_messages := ["Extracting audio...", "Extracted audio: x.wav"] }
        "Extracted audio: x.wav" uploadedJob.status = some 15 ∧
    (send_batched_updates
        { last_progress := 10,
          batched_messages := ["Extracting audio...", "Extracted audio: x.wav"] }
        uploadedJob).1.last_progress = 15 ∧
    (send_batched_updates
        { last_progress := 10,
          batched_messages := ["Extracting audio...", "Extracted audio: x.wav"] }
        uploadedJob).2 = update_job_status uploadedJob
      { status := uploadedJob.status, progress := some 15,
        current_activity := some "Extracted audio: x.wav" } :=
  C9_flush_extracted_audio_band _ uploadedJob rfl (by decide)

/-- Claim C2, counterexample: a completed job that receives a WebSocket
`update_transcription` control message with a valid (non-empty) payload is
not rejected — the handler mutates it to `transcription_confirmed`, because
the WebSocket path never checks the current status. -/
theorem C2_counterexample :
    completedJob.status = "completed" ∧
    ws_update_transcription completedJob { transcription := some [seg1] } ≠ completedJob ∧
    (ws_update_transcription completedJob { transcription := some [seg1] }).status =
      "transcription_confirmed" ∧
    (ws_update_transcription completedJob { transcription := some [seg1] }).progress = 45 := by
  decide

/-- Claim C2, amended: only the HTTP confirm endpoint enforces the
awaiting-confirmation check — for any other status it returns 400 and leaves
the record untouched; the WebSocket `update_transcription` handler applies
the confirmation to any existing job with a non-empty payload, whatever its
status. -/
theorem C2_confirm_status_check (env : FsEnv) (j : JobRecord) (tr : List Segment)
    (h : j.status ≠ "transcription_complete") :
    (update_job_transcription env (some j) tr =
      (some j, .error (400, "Job not in transcription phase"))) ∧
    (∀ (m : WsMsg) (trw : List Segment), m.transcription = some trw → trw ≠ [] →
      (ws_update_transcription j m).status = "transcription_confirmed" ∧
      (ws_update_transcription j m).transcription = some trw ∧
      (ws_update_transcription j m).progress = 45) := by
  constructor
  · simp [update_job_transcription, h]
  · intro m trw hm htrw
    have hne : trw.isEmpty = false := by
      rw [Bool.eq_false_iff]
      intro hc
      exact htrw (List.isEmpty_iff.mp hc)
    simp only [ws_update_transcription, hm, hne, Bool.false_eq_true, if_false]
    split
    · exact ⟨rfl, rfl, rfl⟩
    · exact ⟨rfl, rfl, rfl⟩

/-- Claim C2, amended, witness: the completed job is a job whose status is
not awaiting-confirmation; the HTTP endpoint rejects it unchanged while the
WebSocket handler confirms it. -/
theorem C2_confirm_status_check_witness :
    (update_job_transcription ⟨true⟩ (some completedJob) [seg1] =
      (some completedJob, .error (400, "Job not in transcription phase"))) ∧
    ((ws_update_transcription completedJob { transcription := some [seg1] }).status =
      "transcription_confirmed" ∧
     (ws_update_transcription completedJob { transcription := some [seg1] }).transcription =
      some [seg1] ∧
     (ws_update_transcription completedJob { transcription := some [seg1] }).progress = 45) := by
  have h := C2_confirm_status_check ⟨true⟩ completedJob [seg1] (by decide)
  exact ⟨h.1, h.2 { transcription := some [seg1] } [seg1] rfl (by decide)⟩

/-- Claim C4, counterexample: for a job at the confirmation checkpoint the
HTTP endpoint accepts an empty segment sequence — far from rejecting it with
no state change, it replaces the stored transcription with the empty list,
moves the job to `transcription_confirmed` and resumes processing. -/
theorem C4_counterexample :
    awaitingJob.status = "transcription_complete" ∧
    (update_job_transcription ⟨true⟩ (some awaitingJob) []).2.toOption =
      some "Transcription updated, processing resumed" ∧
    ((update_job_transcription ⟨true⟩ (some awaitingJob) []).1.map fun r => r.status) =
      some "transcription_confirmed" ∧
    ((update_job_transcription ⟨true⟩ (some awaitingJob) []).1.map fun r => r.transcription) =
      some (some []) := by
  decide

/-- Claim C4, amended: on the WebSocket path an empty payload is ignored (no
state change), but the HTTP endpoint performs no emptiness check: for a job
in the awaiting-confirmation state it replaces the stored transcription with
whatever sequence was supplied — empty included — in a single assignment,
and moves the job to `transcription_confirmed`. -/
theorem C4_confirmation_payload_handling (env : FsEnv) (j : JobRecord) (tr : List Segment)
    (h : j.status = "transcription_complete") :
    (∀ m : WsMsg, m.transcription = some [] → ws_update_transcription j m = j) ∧
    ((update_job_transcription env (some j) tr).1.map fun r => r.transcription) =
      some (some tr) ∧
    ((update_job_transcription env (some j) tr).1.map fun r => r.status) =
      some "transcription_confirmed" := by
  have hg : ¬ j.status ≠ "transcription_complete" := by simp [h]
  have hfire : update_job_status { j with transcription := some tr }
      { status := "transcription_confirmed", progress := some 45,
        current_activity :=
          some "Transcription confirmed, proceeding with voiceover generation" } =
      apply_update { j with transcription := some tr }
      { status := "transcription_confirmed", progress := some 45,
        current_activity :=
          some "Transcription confirmed, proceeding with voiceover generation" } := by
    apply update_job_status_fires
    show ("transcription_confirmed" : String) ≠ j.status
    rw [h]
    decide
  refine ⟨?_, ?_, ?_⟩
  · intro m hm
    simp [ws_update_transcription, hm]
  · simp only [update_job_transcription, if_neg hg, hfire]
    split
    · rfl
    · split
      · rfl
      · rfl
  · simp only [update_job_transcription, if_neg hg, hfire]
    split
    · rfl
    · split
      · rfl
      · rfl

/-- Claim C4, amended, witness at the fixture job sitting at the
confirmation checkpoint. -/
theorem C4_confirmation_payload_handling_witness :
    (∀ m : WsMsg, m.transcription = some [] →
      ws_update_transcription awaitingJob m = awaitingJob) ∧
    ((update_job_transcription ⟨true⟩ (some awaitingJob) [seg1]).1.map
      fun r => r.transcription) = some (some [seg1]) ∧
    ((update_job_transcription ⟨true⟩ (some awaitingJob) [seg1]).1.map
      fun r => r.status) = some "transcription_confirmed" :=
  C4_confirmation_payload_handling ⟨true⟩ awaitingJob [seg1] (by decide)

/-- Claim C8: when the transcription collaborator returns zero segments, the
pipeline run ends in the terminal `error` state with the reason
"No speech detected in the video" and a finish timestamp, and no state of
the run ever carries the awaiting-confirmation status
(`transcription_complete`). -/
theorem C8_no_speech_terminal_error (env : PipelineEnv) (s : ℚ) (j : JobRecord)
    (hj : j.status = "uploaded") (hx : env.extract = none)
    (ht : env.transcribe = .ok []) (hn : env.now ≠ "") :
    ((process_video env s j).map fun r => r.status) =
      ["extracting_audio", "transcribing", "error"] ∧
    (∀ r ∈ process_video env s j, r.status ≠ "transcription_complete") ∧
    (((process_video env s j).getLast?).map fun r => r.error) =
      some (some "No speech detected in the video") ∧
    (((process_video env s j).getLast?).map fun r => r.finished_at) =
      some (some env.now) := by
  have e1 : update_job_status j
      { status := "extracting_audio", progress := some 10, speed_factor := some s,
        current_activity := some "Starting audio extraction from video" } =
      apply_update j
      { status := "extracting_audio", progress := some 10, speed_factor := some s,
        current_activity := some "Starting audio extraction from video" } := by
    apply update_job_status_fires
    show ("extracting_audio" : String) ≠ j.status
    rw [hj]
    decide
  have hshape : process_video env s j =
      [apply_update j
        { status := "extracting_audio", progress := some 10, speed_factor := some s,
          current_activity := some "Starting audio extraction from video" },
       update_job_status (apply_update j
        { status := "extracting_audio", progress := some 10, speed_factor := some s,
          current_activity := some "Starting audio extraction from video" })
        { status := "transcribing", progress := some 20,
          audio_path := some ("media/temp/" ++ j.job_id ++ "_audio.wav"),
          current_activity := some "Transcribing audio with Whisper AI" },
       pipeline_error_update env.now "No speech detected in the video"
        (update_job_status (apply_update j
          { status := "extracting_audio", progress := some 10, speed_factor := some s,
            current_activity := some "Starting audio extraction from video" })
          { status := "transcribing", progress := some 20,
            audio_path := some ("media/temp/" ++ j.job_id ++ "_audio.wav"),
            current_activity := some "Transcribing audio with Whisper AI" })] := by
    simp only [process_video, hx, ht, e1]
    rfl
  have e2 : update_job_status (apply_update j
      { status := "extracting_audio", progress := some 10, speed_factor := some s,
        current_activity := some "Starting audio extraction from video" })
      { status := "transcribing", progress := some 20,
        audio_path := some ("media/temp/" ++ j.job_id ++ "_audio.wav"),
        current_activity := some "Transcribing audio with Whisper AI" } =
      apply_update (apply_update j
      { status := "extracting_audio", progress := some 10, speed_factor := some s,
        current_activity := some "Starting audio extraction from video" })
      { status := "transcribing", progress := some 20,
        audio_path := some ("media/temp/" ++ j.job_id ++ "_audio.wav"),
        current_activity := some "Transcribing audio with Whisper AI" } := by
    apply update_job_status_fires
    show ("transcribing" : String) ≠ "extracting_audio"
    decide
  rw [hshape, e2]
  have e3 : pipeline_error_update env.now "No speech detected in the video"
      (apply_update (apply_update j
        { status := "extracting_audio", progress := some 10, speed_factor := some s,
          current_activity := some "Starting audio extraction from video" })
        { status := "transcribing", progress := some 20,
          audio_path := some ("media/temp/" ++ j.job_id ++ "_audio.wav"),
          current_activity := some "Transcribing audio with Whisper AI" }) =
      apply_update (apply_update (apply_update j
        { status := "extracting_audio", progress := some 10, speed_factor := some s,
          current_activity := some "Starting audio extraction from video" })
        { status := "transcribing", progress := some 20,
          audio_path := some ("media/temp/" ++ j.job_id ++ "_audio.wav"),
          current_activity := some "Transcribing audio with Whisper AI" })
      { status := "error", progress := some 0,
        error := some "No speech detected in the video",
        finished_at := some env.now,
        current_activity := some ("Error: " ++ "No speech detected in the video") } := by
    unfold pipeline_error_update
    apply update_job_status_fires
    show ("error" : String) ≠ "transcribing"
    decide
  rw [e3]
  have hfin : truthyStr (some env.now) = true := truthyStr_some_of_ne env.now hn
  refine ⟨rfl, ?_, ?_, ?_⟩
  · intro r hr
    rcases List.mem_cons.mp hr with rfl | hr
    · show ("extracting_audio" : String) ≠ "transcription_complete"
      decide
    rcases List.mem_cons.mp hr with rfl | hr
    · show ("transcribing" : String) ≠ "transcription_complete"
      decide
    rcases List.mem_cons.mp hr with rfl | hr
    · show ("error" : String) ≠ "transcription_complete"
      decide
    · simp at hr
  · have herr : truthyStr (some "No speech detected in the video") = true := by decide
    simp [apply_update, herr]
  · simp [apply_update, hfin]

/-- Claim C8, witness: the fixture upload with an empty transcription result
ends in `error` with the no-speech reason. -/
theorem C8_no_speech_terminal_error_witness :
    ((process_video envNoSpeech 1 uploadedJob).map fun r => r.status) =
      ["extracting_audio", "transcribing", "error"] ∧
    (∀ r ∈ process_video envNoSpeech 1 uploadedJob, r.status ≠ "transcription_complete") ∧
    (((process_video envNoSpeech 1 uploadedJob).getLast?).map fun r => r.error) =
      some (some "No speech detected in the video") ∧
    (((process_video envNoSpeech 1 uploadedJob).getLast?).map fun r => r.finished_at) =
      some (some envNoSpeech.now) :=
  C8_no_speech_terminal_error envNoSpeech 1 uploadedJob (by decide) rfl rfl (by decide)

/-- The pipeline exception handler moves a not-yet-errored job to `error`
and writes the finish timestamp. -/
theorem pipeline_error_update_finished_at (now msg : String) (j : JobRecord)
    (hs : j.status ≠ "error") (hn : now ≠ "") :
    (pipeline_error_update now msg j).status = "error" ∧
    (pipeline_error_update now msg j).finished_at = some now := by
  rw [pipeline_error_update, update_job_status_fires _ _ (Ne.symm hs)]
  refine ⟨rfl, ?_⟩
  show (if truthyStr (some now) then some now else j.finished_at) = some now
  rw [truthyStr_some_of_ne now hn]
  simp

/-- Claim C7, counterexample: a job completed by the pipeline (so carrying a
finish timestamp) that enters the speed-adjustment branch has the
non-terminal status `adjusting_speed` while `finished_at` is still set — the
"finished_at unset whenever the status is non-terminal" direction fails. -/
theorem C7_counterexample :
    completedJob.status = "completed" ∧
    completedJob.finished_at = some "2024-01-01T00:20:00" ∧
    ((adjust_audio_speed ⟨true⟩ (some completedJob) (mkRat 3 2)).1.map fun r => r.status) =
      some "adjusting_speed" ∧
    ((adjust_audio_speed ⟨true⟩ (some completedJob) (mkRat 3 2)).1.map fun r => r.finished_at) =
      some (some "2024-01-01T00:20:00") := by
  decide

/-- Claim C7, amended: every main-pipeline transition into `error` or
`completed` records the finish timestamp, and `update_job_status` never
clears a set `finished_at`; the speed-adjustment branch (endpoint entry and
all of its updates) never touches `finished_at`, so the timestamp written at
the first completion persists — including while the branch's non-terminal
statuses are current. -/
theorem C7_finished_at_persistence :
    (∀ (j : JobRecord) (a : UpdateArgs), j.finished_at.isSome →
      (update_job_status j a).finished_at.isSome) ∧
    (∀ (env : PipelineEnv) (s : ℚ) (j : JobRecord), j.status = "uploaded" → env.now ≠ "" →
      ∀ r ∈ process_video env s j, (r.status = "error" ∨ r.status = "completed") →
        r.finished_at = some env.now) ∧
    (∀ (env : ContinueEnv) (s : ℚ) (j : JobRecord), j.status = "transcription_confirmed" →
      env.now ≠ "" → ∀ r ∈ continue_video_processing env s j,
        (r.status = "error" ∨ r.status = "completed") → r.finished_at = some env.now) ∧
    (∀ (env : SpeedEnv) (s : ℚ) (j : JobRecord),
      ∀ r ∈ process_speed_adjustment env s j, r.finished_at = j.finished_at) ∧
    (∀ (envF : FsEnv) (j : JobRecord) (s : ℚ),
      ((adjust_audio_speed envF (some j) s).1.map fun r => r.finished_at) =
        some j.finished_at) := by
  refine ⟨fun j a h => update_job_status_finished_at_mono j a h, ?_, ?_, ?_, ?_⟩
  · intro env s j hj hn r hr hterm
    have e1 : update_job_status j
        { status := "extracting_audio", progress := some 10, speed_factor := some s,
          current_activity := some "Starting audio extraction from video" } =
        apply_update j
        { status := "extracting_audio", progress := some 10, speed_factor := some s,
          current_activity := some "Starting audio extraction from video" } := by
      apply update_job_status_fires
      show ("extracting_audio" : String) ≠ j.status
      rw [hj]; decide
    cases hx : env.extract with
    | some msg =>
      simp only [process_video, hx, e1] at hr
      rcases List.mem_cons.mp hr with rfl | hr
      · rcases hterm with h | h <;> simp [apply_update] at h
      rcases List.mem_cons.mp hr with rfl | hr
      · exact (pipeline_error_update_finished_at env.now msg _
          (by simp [apply_update]) hn).2
      · simp at hr
    | none =>
      have e2 : update_job_status (apply_update j
          { status := "extracting_audio", progress := some 10, speed_factor := some s,
            current_activity := some "Starting audio extraction from video" })
          { status := "transcribing", progress := some 20,
            audio_path := some ("media/temp/" ++ j.job_id ++ "_audio.wav"),
            current_activity := some "Transcribing audio with Whisper AI" } =
          apply_update (apply_update j
          { status := "extracting_audio", progress := some 10, speed_factor := some s,
            current_activity := some "Starting audio extraction from video" })
          { status := "transcribing", progress := some 20,
            audio_path := some ("media/temp/" ++ j.job_id ++ "_audio.wav"),
            current_activity := some "Transcribing audio with Whisper AI" } := by
        apply update_job_status_fires
        show ("transcribing" : String) ≠ "extracting_audio"
        decide
      cases ht : env.transcribe with
      | error msg =>
        simp only [process_video, hx, ht, e1, e2] at hr
        rcases List.mem_cons.mp hr with rfl | hr
        · rcases hterm with h | h <;> simp [apply_update] at h
        rcases List.mem_cons.mp hr with rfl | hr
        · rcases hterm with h | h <;> simp [apply_update] at h
        rcases List.mem_cons.mp hr with rfl | hr
        · exact (pipeline_error_update_finished_at env.now msg _
            (by simp [apply_update]) hn).2
        · simp at hr
      | ok segs =>
        by_cases hemp : segs.isEmpty
        · simp only [process_video, hx, ht, hemp, if_true, e1, e2] at hr
          rcases List.mem_cons.mp hr with rfl | hr
          · rcases hterm with h | h <;> simp [apply_update] at h
          rcases List.mem_cons.mp hr with rfl | hr
          · rcases hterm with h | h <;> simp [apply_update] at h
          rcases List.mem_cons.mp hr with rfl | hr
          · exact (pipeline_error_update_finished_at env.now
              "No speech detected in the video" _ (by simp [apply_update]) hn).2
          · simp at hr
        · have e3 : update_job_status (apply_update (apply_update j
              { status := "extracting_audio", progress := some 10, speed_factor := some s,
                current_activity := some "Starting audio extraction from video" })
              { status := "transcribing", progress := some 20,
                audio_path := some ("media/temp/" ++ j.job_id ++ "_audio.wav"),
                current_activity := some "Transcribing audio with Whisper AI" })
              { status := "transcription_complete", progress := some 40,
                transcription := some segs,
                srt_path := some ("media/temp/" ++ j.job_id ++ "_subtitles.srt"),
                current_activity := some "Transcription ready for review" } =
              apply_update (apply_update (apply_update j
              { status := "extracting_audio", progress := some 10, speed_factor := some s,
                current_activity := some "Starting audio extraction from video" })
              { status := "transcribing", progress := some 20,
                audio_path := some ("media/temp/" ++ j.job_id ++ "_audio.wav"),
                current_activity := some "Transcribing audio with Whisper AI" })
              { status := "transcription_complete", progress := some 40,
                transcription := some segs,
                srt_path := some ("media/temp/" ++ j.job_id ++ "_subtitles.srt"),
                current_activity := some "Transcription ready for review" } := by
            apply update_job_status_fires
            show ("transcription_complete" : String) ≠ "transcribing"
            decide
          simp only [process_video, hx, ht, hemp, Bool.false_eq_true, if_false, e1, e2, e3] at hr
          rcases List.mem_cons.mp hr with rfl | hr
          · rcases hterm with h | h <;> simp [apply_update] at h
          rcases List.mem_cons.mp hr with rfl | hr
          · rcases hterm with h | h <;> simp [apply_update] at h
          rcases List.mem_cons.mp hr with rfl | hr
          · rcases hterm with h | h <;> simp [apply_update] at h
          · simp at hr
  · intro env s j hj hn r hr hterm
    have e1 : update_job_status j
        { status := "generating_tts", progress := some 50,
          current_activity :=
            some ("Generating AI voiceover with speed factor " ++ toString s) } =
        apply_update j
        { status := "generating_tts", progress := some 50,
          current_activity :=
            some ("Generating AI voiceover with speed factor " ++ toString s) } := by
      apply update_job_status_fires
      show ("generating_tts" : String) ≠ j.status
      rw [hj]; decide
    cases ht : env.tts with
    | error msg =>
      simp only [continue_video_processing, ht, e1] at hr
      rcases List.mem_cons.mp hr with rfl | hr
      · rcases hterm with h | h <;> simp [apply_update] at h
      rcases List.mem_cons.mp hr with rfl | hr
      · exact (pipeline_error_update_finished_at env.now msg _
          (by simp [apply_update]) hn).2
      · simp at hr
    | ok clips =>
      by_cases hemp : clips.isEmpty
      · simp only [continue_video_processing, ht, hemp, if_true, e1] at hr
        rcases List.mem_cons.mp hr with rfl | hr
        · rcases hterm with h | h <;> simp [apply_update] at h
        rcases List.mem_cons.mp hr with rfl | hr
        · exact (pipeline_error_update_finished_at env.now
            "Failed to generate TTS audio" _ (by simp [apply_update]) hn).2
        · simp at hr
      · have e2 : update_job_status (apply_update j
            { status := "generating_tts", progress := some 50,
              current_activity :=
                some ("Generating AI voiceover with speed factor " ++ toString s) })
            { status := "creating_voiceover", progress := some 80,
              current_activity :=
                some "Assembling audio segments into complete voiceover" } =
            apply_update (apply_update j
            { status := "generating_tts", progress := some 50,
              current_activity :=
                some ("Generating AI voiceover with speed factor " ++ toString s) })
            { status := "creating_voiceover", progress := some 80,
              current_activity :=
                some "Assembling audio segments into complete voiceover" } := by
          apply update_job_status_fires
          show ("creating_voiceover" : String) ≠ "generating_tts"
          decide
        cases ha : env.assemble with
        | some msg =>
          simp only [continue_video_processing, ht, hemp, Bool.false_eq_true, if_false,
            ha, e1, e2] at hr
          rcases List.mem_cons.mp hr with rfl | hr
          · rcases hterm with h | h <;> simp [apply_update] at h
          rcases List.mem_cons.mp hr with rfl | hr
          · rcases hterm with h | h <;> simp [apply_update] at h
          rcases List.mem_cons.mp hr with rfl | hr
          · exact (pipeline_error_update_finished_at env.now msg _
              (by simp [apply_update]) hn).2
          · simp at hr
        | none =>
          have e3 : update_job_status (apply_update (apply_update j
              { status := "generating_tts", progress := some 50,
                current_activity :=
                  some ("Generating AI voiceover with speed factor " ++ toString s) })
              { status := "creating_voiceover", progress := some 80,
                current_activity :=
                  some "Assembling audio segments into complete voiceover" })
              { status := "creating_video", progress := some 90,
                current_activity := some "Creating final video with voiceover" } =
              apply_update (apply_update (apply_update j
              { status := "generating_tts", progress := some 50,
                current_activity :=
                  some ("Generating AI voiceover with speed factor " ++ toString s) })
              { status := "creating_voiceover", progress := some 80,
                current_activity :=
                  some "Assembling audio segments into complete voiceover" })
              { status := "creating_video", progress := some 90,
                current_activity := some "Creating final video with voiceover" } := by
            apply update_job_status_fires
            show ("creating_video" : String) ≠ "creating_voiceover"
            decide
          cases hm : env.mux with
          | some msg =>
            simp only [continue_video_processing, ht, hemp, Bool.false_eq_true, if_false,
              ha, hm, e1, e2, e3] at hr
            rcases List.mem_cons.mp hr with rfl | hr
            · rcases hterm with h | h <;> simp [apply_update] at h
            rcases List.mem_cons.mp hr with rfl | hr
            · rcases hterm with h | h <;> simp [apply_update] at h
            rcases List.mem_cons.mp hr with rfl | hr
            · rcases hterm with h | h <;> simp [apply_update] at h
            rcases List.mem_cons.mp hr with rfl | hr
            · exact (pipeline_error_update_finished_at env.now msg _
                (by simp [apply_update]) hn).2
            · simp at hr
          | none =>
            have e4 : update_job_status (apply_update (apply_update (apply_update j
                { status := "generating_tts", progress := some 50,
                  current_activity :=
                    some ("Generating AI voiceover with speed factor " ++ toString s) })
                { status := "creating_voiceover", progress := some 80,
                  current_activity :=
                    some "Assembling audio segments into complete voiceover" })
                { status := "creating_video", progress := some 90,
                  current_activity := some "Creating final video with voiceover" })
                { status := "completed", progress := some 100,
                  finished_at := some env.now,
                  video_path := some ("/media/outputs/" ++ j.job_id ++ "_output.mp4"),
                  audio_path := some ("/media/outputs/" ++ j.job_id ++ "_audio_only.mp3"),
                  speed_factor := some s,
                  current_activity := some "Processing completed successfully" } =
                apply_update (apply_update (apply_update (apply_update j
                { status := "generating_tts", progress := some 50,
                  current_activity :=
                    some ("Generating AI voiceover with speed factor " ++ toString s) })
                { status := "creating_voiceover", progress := some 80,
                  current_activity :=
                    some "Assembling audio segments into complete voiceover" })
                { status := "creating_video", progress := some 90,
                  current_activity := some "Creating final video with voiceover" })
                { status := "completed", progress := some 100,
                  finished_at := some env.now,
                  video_path := some ("/media/outputs/" ++ j.job_id ++ "_output.mp4"),
                  audio_path := some ("/media/outputs/" ++ j.job_id ++ "_audio_only.mp3"),
                  speed_factor := some s,
                  current_activity := some "Processing completed successfully" } := by
              apply update_job_status_fires
              show ("completed" : String) ≠ "creating_video"
              decide
            simp only [continue_video_processing, ht, hemp, Bool.false_eq_true, if_false,
              ha, hm, e1, e2, e3, e4] at hr
            rcases List.mem_cons.mp hr with rfl | hr
            · rcases hterm with h | h <;> simp [apply_update] at h
            rcases List.mem_cons.mp hr with rfl | hr
            · rcases hterm with h | h <;> simp [apply_update] at h
            rcases List.mem_cons.mp hr with rfl | hr
            · rcases hterm with h | h <;> simp [apply_update] at h
            rcases List.mem_cons.mp hr with rfl | hr
            · show (if truthyStr (some env.now) then some env.now else _) = some env.now
              rw [truthyStr_some_of_ne env.now hn]
              simp
            · simp at hr
  · intro env s j r hr
    have k1 : (update_job_status j
        { status := "adjusting_speed", progress := some 10,
          current_activity :=
            some ("Adjusting audio speed to " ++ toString (s * 100) ++ "%") }).finished_at =
        j.finished_at := update_job_status_keeps_finished_at _ _ rfl
    cases hx : env.audioFx with
    | some msg =>
      simp only [process_speed_adjustment, hx] at hr
      rcases List.mem_cons.mp hr with rfl | hr
      · exact k1
      rcases List.mem_cons.mp hr with rfl | hr
      · rw [speed_error_update, update_job_status_keeps_finished_at _ _ rfl]
        exact k1
      · simp at hr
    | none =>
      have k2 : (update_job_status (update_job_status j
          { status := "adjusting_speed", progress := some 10,
            current_activity :=
              some ("Adjusting audio speed to " ++ toString (s * 100) ++ "%") })
          { status := "creating_adjusted_video", progress := some 50,
            current_activity :=
              some "Creating new video with adjusted audio speed" }).finished_at =
          j.finished_at :=
        (update_job_status_keeps_finished_at _ _ rfl).trans k1
      cases hv : env.vid with
      | some msg =>
        simp only [process_speed_adjustment, hx, hv] at hr
        rcases List.mem_cons.mp hr with rfl | hr
        · exact k1
        rcases List.mem_cons.mp hr with rfl | hr
        · exact k2
        rcases List.mem_cons.mp hr with rfl | hr
        · rw [speed_error_update, update_job_status_keeps_finished_at _ _ rfl]
          exact k2
        · simp at hr
      | none =>
        simp only [process_speed_adjustment, hx, hv] at hr
        rcases List.mem_cons.mp hr with rfl | hr
        · exact k1
        rcases List.mem_cons.mp hr with rfl | hr
        · exact k2
        rcases List.mem_cons.mp hr with rfl | hr
        · exact (update_job_status_keeps_finished_at _ _ rfl).trans k2
        · simp at hr
  · intro envF j s
    unfold adjust_audio_speed
    dsimp only
    split
    · simp
    · split
      · simp
      · split
        · simp
        · split
          · simp
          · simp [update_job_status_keeps_finished_at]

/-- Claim C7, amended, witness at the completed fixture job. -/
theorem C7_finished_at_persistence_witness :
    (update_job_status completedJob
      { status := "adjusting_speed", progress := some 0 }).finished_at.isSome ∧
    (∀ r ∈ process_video envNoSpeech 1 uploadedJob,
      (r.status = "error" ∨ r.status = "completed") → r.finished_at = some envNoSpeech.now) ∧
    (∀ r ∈ process_speed_adjustment { audioFx := none, vid := none } (mkRat 3 2) completedJob,
      r.finished_at = completedJob.finished_at) ∧
    ((adjust_audio_speed ⟨true⟩ (some completedJob) (mkRat 3 2)).1.map
      fun r => r.finished_at) = some completedJob.finished_at := by
  refine ⟨?_, ?_, ?_, ?_⟩
  · exact C7_finished_at_persistence.1 completedJob _ (by decide)
  · exact C7_finished_at_persistence.2.1 envNoSpeech 1 uploadedJob (by decide) (by decide)
  · exact C7_finished_at_persistence.2.2.2.1 { audioFx := none, vid := none } (mkRat 3 2)
      completedJob
  · exact C7_finished_at_persistence.2.2.2.2 ⟨true⟩ completedJob (mkRat 3 2)

/-- The flush emits a progress value only when it is strictly above the
capture's own watermark — the inference engine is monotone relative to
`last_progress`, not relative to the job's stored progress. -/
theorem flushProgress_gt_watermark (c : CaptureState) (m st : String) (p : ℚ)
    (h : flushProgress c m st = some p) : c.last_progress < p := by
  simp only [flushProgress] at h
  repeat' split at h
  all_goals simp_all

/-- The capture watermark never decreases across a flush. -/
theorem send_batched_updates_watermark_mono (c : CaptureState) (j : JobRecord) :
    c.last_progress ≤ (send_batched_updates c j).1.last_progress := by
  unfold send_batched_updates
  cases hm : c.batched_messages.getLast? with
  | none => exact le_refl _
  | some m =>
    dsimp only
    cases hp : flushProgress c m j.status with
    | none => exact le_refl _
    | some p => exact le_of_lt (flushProgress_gt_watermark c m j.status p hp)

/-- When a flush lowers the stored progress, the cause is precisely an
emitted value that is above the capture's watermark but below the stored
progress (possible because a fresh capture starts its watermark at 0). -/
theorem send_batched_updates_decrease (c : CaptureState) (j : JobRecord)
    (h : (send_batched_updates c j).2.progress < j.progress) :
    ∃ m p, c.batched_messages.getLast? = some m ∧
      flushProgress c m j.status = some p ∧ c.last_progress < p ∧ p < j.progress := by
  unfold send_batched_updates at h
  cases hm : c.batched_messages.getLast? with
  | none =>
    rw [hm] at h
    exact absurd h (lt_irrefl _)
  | some m =>
    rw [hm] at h
    dsimp only at h
    cases hp : flushProgress c m j.status with
    | none =>
      rw [hp] at h
      have hres : (update_job_status j
          { status := j.status, progress := none, current_activity := some m }).progress =
          j.progress := by
        unfold update_job_status
        split
        · rfl
        · rfl
      rw [hres] at h
      exact absurd h (lt_irrefl _)
    | some p =>
      rw [hp] at h
      by_cases hg : update_is_meaningful j
          { status := j.status, progress := some p, current_activity := some m } = true
      · refine ⟨m, p, rfl, hp, flushProgress_gt_watermark c m j.status p hp, ?_⟩
        unfold update_job_status at h
        rw [if_pos hg] at h
        exact h
      · unfold update_job_status at h
        rw [if_neg hg] at h
        exact absurd h (lt_irrefl _)

/-- The subscribe-time bump never lowers the stored progress. -/
theorem websocket_attach_progress_mono (j : JobRecord) (hp : j.progress ≤ 100) :
    j.progress ≤ (websocket_attach j).1.progress := by
  have hmin : 0 ≤ ratMin 1 ((100 - j.progress) * mkRat 5 100) := by
    unfold ratMin
    rw [mkRat_5_100_eq]
    split
    · norm_num
    · linarith
  unfold websocket_attach
  by_cases hact : truthyStr j.current_activity = true
  · simp only [hact, if_true]
    split
    · exact le_refl _
    · dsimp only
      linarith
  · simp only [hact, Bool.false_eq_true, if_false]
    split
    · exact le_refl _
    · dsimp only
      linarith

/-- The WebSocket confirmation writes the fixed progress 45; it lowers the
stored progress exactly when the job was already past 45. -/
theorem ws_update_transcription_decrease (j : JobRecord) (m : WsMsg)
    (h : (ws_update_transcription j m).progress < j.progress) :
    (ws_update_transcription j m).progress = 45 ∧ 45 < j.progress := by
  unfold ws_update_transcription at h ⊢
  cases hm : m.transcription with
  | none =>
    rw [hm] at h
    exact absurd h (lt_irrefl _)
  | some tr =>
    rw [hm] at h
    dsimp only at h ⊢
    by_cases he : tr.isEmpty = true
    · rw [if_pos he] at h
      exact absurd h (lt_irrefl _)
    · rw [if_neg he] at h ⊢
      by_cases hsf : m.speed_factor.getD 1 ≠ 0
      · rw [if_pos hsf] at h ⊢
        exact ⟨rfl, h⟩
      · rw [if_neg hsf] at h ⊢
        exact ⟨rfl, h⟩

/-- A fresh capture (watermark 0) flushing "Loading video file..." over the
job sitting at `extracting_audio` with progress 10: no phrase matches, the
status default 8 beats the watermark 0 and is emitted, and the
meaningful-update gate fires on the progress change |8 - 10| ≥ 1 — so the
mutation block runs and the stored progress drops to 8. -/
theorem flush_regression_example :
    (send_batched_updates
      { last_progress := 0, batched_messages := ["Loading video file..."] }
      extractingJob).2 =
    apply_update extractingJob
      { status := extractingJob.status, progress := some 8,
        current_activity := some "Loading video file..." } := by
  have hfl : flushProgress
      { last_progress := 0, batched_messages := ["Loading video file..."] }
      "Loading video file..." extractingJob.status = some 8 := by decide
  have hgate : update_is_meaningful extractingJob
      { status := extractingJob.status, progress := some 8,
        current_activity := some "Loading video file..." } = true := by
    have h10 : extractingJob.progress = 10 := by decide
    have h8 : (1 : ℚ) ≤ ratAbs (8 - extractingJob.progress) := by
      rw [h10]
      norm_num [ratAbs]
    simp [update_is_meaningful, h8]
  unfold send_batched_updates
  dsimp only
  rw [show (["Loading video file..."] : List String).getLast? =
    some "Loading video file..." from by decide]
  dsimp only
  rw [hfl]
  unfold update_job_status
  rw [hgate]
  simp

/-- Claim C5, counterexample: the progress visible to subscribers does
decrease outside the speed-adjustment branch, at two distinct points.  A run
whose transcription returns no segments publishes progress 10, then 20, then
0 at the transition into `error`; and a fresh progress-capture flush (its
watermark starts at 0) over the line "Loading video file..." while the job
sits at `extracting_audio` with progress 10 writes the status default 8 —
a broadcast decrease at a status that is neither `error` nor
`adjusting_speed`. -/
theorem C5_counterexample :
    (((process_video envNoSpeech 1 uploadedJob).map fun r => r.progress) = [10, 20, 0] ∧
     ((process_video envNoSpeech 1 uploadedJob).map fun r => r.status) =
       ["extracting_audio", "transcribing", "error"] ∧
     (∀ r ∈ process_video envNoSpeech 1 uploadedJob, r.status ≠ "adjusting_speed")) ∧
    (extractingJob.status = "extracting_audio" ∧
     extractingJob.progress = 10 ∧
     (send_batched_updates
        { last_progress := 0, batched_messages := ["Loading video file..."] }
        extractingJob).2.progress = 8 ∧
     (send_batched_updates
        { last_progress := 0, batched_messages := ["Loading video file..."] }
        extractingJob).2.status = "extracting_audio") := by
  refine ⟨⟨by decide, by decide, by decide⟩, by decide, by decide, ?_, ?_⟩
  · rw [flush_regression_example]
    decide
  · rw [flush_regression_example]
    decide

/-- Claim C5, amended: the progress a subscriber observes is not globally
non-decreasing; characterizing every write path of `progress`: the
orchestrator's checkpoint sequences decrease only at a transition into
`error` or at speed-adjustment branch entry (both reset progress to 0); a
progress-capture flush lowers the stored value only by emitting a value
that is above its own per-capture watermark (the watermark starts at 0, not
at the job's stored progress, and never decreases — the engine is monotone
only relative to it) yet below the stored progress; the subscribe-time bump
never lowers progress; and the WebSocket confirmation lowers progress only
by writing its fixed 45 over a job already past 45. -/
theorem C5_progress_monotone_until_reset :
    (∀ (env : PipelineEnv) (s : ℚ) (j : JobRecord), j.status = "uploaded" →
      j.progress = 0 → progress_drop_resets (j :: process_video env s j)) ∧
    (∀ (env : ContinueEnv) (s : ℚ) (j : JobRecord), j.status = "transcription_confirmed" →
      j.progress = 45 → progress_drop_resets (j :: continue_video_processing env s j)) ∧
    (∀ (env : SpeedEnv) (s : ℚ) (j : JobRecord), j.status = "adjusting_speed" →
      j.progress = 0 → progress_drop_resets (j :: process_speed_adjustment env s j)) ∧
    (∀ (envF : FsEnv) (j : JobRecord) (s : ℚ), j.status = "completed" → 0 < s →
      truthyStr j.audio_path = true → envF.videoFound = true →
      ((adjust_audio_speed envF (some j) s).1.map fun r => r.status) =
        some "adjusting_speed" ∧
      ((adjust_audio_speed envF (some j) s).1.map fun r => r.progress) = some 0) ∧
    (∀ (c : CaptureState) (j : JobRecord),
      (send_batched_updates c j).2.progress < j.progress →
      ∃ m p, c.batched_messages.getLast? = some m ∧
        flushProgress c m j.status = some p ∧ c.last_progress < p ∧ p < j.progress) ∧
    (∀ (c : CaptureState) (m st : String) (p : ℚ),
      flushProgress c m st = some p → c.last_progress < p) ∧
    (∀ (c : CaptureState) (j : JobRecord),
      c.last_progress ≤ (send_batched_updates c j).1.last_progress) ∧
    (∀ j : JobRecord, j.progress ≤ 100 → j.progress ≤ (websocket_attach j).1.progress) ∧
    (∀ (j : JobRecord) (m : WsMsg), (ws_update_transcription j m).progress < j.progress →
      (ws_update_transcription j m).progress = 45 ∧ 45 < j.progress) := by
  refine ⟨?_, ?_, ?_, ?_, ?_, ?_, ?_, ?_, ?_⟩
  · intro env s j hj hp
    have e1 : update_job_status j
        { status := "extracting_audio", progress := some 10, speed_factor := some s,
          current_activity := some "Starting audio extraction from video" } =
        apply_update j
        { status := "extracting_audio", progress := some 10, speed_factor := some s,
          current_activity := some "Starting audio extraction from video" } := by
      apply update_job_status_fires
      show ("extracting_audio" : String) ≠ j.status
      rw [hj]; decide
    cases hx : env.extract with
    | some msg =>
      have eE : pipeline_error_update env.now msg (apply_update j
          { status := "extracting_audio", progress := some 10, speed_factor := some s,
            current_activity := some "Starting audio extraction from video" }) =
          apply_update (apply_update j
          { status := "extracting_audio", progress := some 10, speed_factor := some s,
            current_activity := some "Starting audio extraction from video" })
          { status := "error", progress := some 0, error := some msg,
            finished_at := some env.now,
            current_activity := some ("Error: " ++ msg) } := by
        unfold pipeline_error_update
        apply update_job_status_fires
        show ("error" : String) ≠ "extracting_audio"
        decide
      simp only [process_video, hx, e1, eE]
      norm_num [progress_drop_resets, List.chain'_cons, apply_update, hp]
    | none =>
      have e2 : update_job_status (apply_update j
          { status := "extracting_audio", progress := some 10, speed_factor := some s,
            current_activity := some "Starting audio extraction from video" })
          { status := "transcribing", progress := some 20,
            audio_path := some ("media/temp/" ++ j.job_id ++ "_audio.wav"),
            current_activity := some "Transcribing audio with Whisper AI" } =
          apply_update (apply_update j
          { status := "extracting_audio", progress := some 10, speed_factor := some s,
            current_activity := some "Starting audio extraction from video" })
          { status := "transcribing", progress := some 20,
            audio_path := some ("media/temp/" ++ j.job_id ++ "_audio.wav"),
            current_activity := some "Transcribing audio with Whisper AI" } := by
        apply update_job_status_fires
        show ("transcribing" : String) ≠ "extracting_audio"
        decide
      have eE : ∀ msg : String, pipeline_error_update env.now msg
          (apply_update (apply_update j
          { status := "extracting_audio", progress := some 10, speed_factor := some s,
            current_activity := some "Starting audio extraction from video" })
          { status := "transcribing", progress := some 20,
            audio_path := some ("media/temp/" ++ j.job_id ++ "_audio.wav"),
            current_activity := some "Transcribing audio with Whisper AI" }) =
          apply_update (apply_update (apply_update j
          { status := "extracting_audio", progress := some 10, speed_factor := some s,
            current_activity := some "Starting audio extraction from video" })
          { status := "transcribing", progress := some 20,
            audio_path := some ("media/temp/" ++ j.job_id ++ "_audio.wav"),
            current_activity := some "Transcribing audio with Whisper AI" })
          { status := "error", progress := some 0, error := some msg,
            finished_at := some env.now,
            current_activity := some ("Error: " ++ msg) } := by
        intro msg
        unfold pipeline_error_update
        apply update_job_status_fires
        show ("error" : String) ≠ "transcribing"
        decide
      cases ht : env.transcribe with
      | error msg =>
        simp only [process_video, hx, ht, e1, e2, eE msg]
        norm_num [progress_drop_resets, List.chain'_cons, apply_update, hp]
      | ok segs =>
        by_cases hemp : segs.isEmpty
        · simp only [process_video, hx, ht, hemp, if_true, e1, e2,
            eE "No speech detected in the video"]
          norm_num [progress_drop_resets, List.chain'_cons, apply_update, hp]
        · have e3 : update_job_status (apply_update (apply_update j
              { status := "extracting_audio", progress := some 10, speed_factor := some s,
                current_activity := some "Starting audio extraction from video" })
              { status := "transcribing", progress := some 20,
                audio_path := some ("media/temp/" ++ j.job_id ++ "_audio.wav"),
                current_activity := some "Transcribing audio with Whisper AI" })
              { status := "transcription_complete", progress := some 40,
                transcription := some segs,
                srt_path := some ("media/temp/" ++ j.job_id ++ "_subtitles.srt"),
                current_activity := some "Transcription ready for review" } =
              apply_update (apply_update (apply_update j
              { status := "extracting_audio", progress := some 10, speed_factor := some s,
                current_activity := some "Starting audio extraction from video" })
              { status := "transcribing", progress := some 20,
                audio_path := some ("media/temp/" ++ j.job_id ++ "_audio.wav"),
                current_activity := some "Transcribing audio with Whisper AI" })
              { status := "transcription_complete", progress := some 40,
                transcription := some segs,
                srt_path := some ("media/temp/" ++ j.job_id ++ "_subtitles.srt"),
                current_activity := some "Transcription ready for review" } := by
            apply update_job_status_fires
            show ("transcription_complete" : String) ≠ "transcribing"
            decide
          simp only [process_video, hx, ht, hemp, Bool.false_eq_true, if_false, e1, e2, e3]
          norm_num [progress_drop_resets, List.chain'_cons, apply_update, hp]
  · intro env s j hj hp
    have e1 : update_job_status j
        { status := "generating_tts", progress := some 50,
          current_activity :=
            some ("Generating AI voiceover with speed factor " ++ toString s) } =
        apply_update j
        { status := "generating_tts", progress := some 50,
          current_activity :=
            some ("Generating AI voiceover with speed factor " ++ toString s) } := by
      apply update_job_status_fires
      show ("generating_tts" : String) ≠ j.status
      rw [hj]; decide
    have eE1 : ∀ msg : String, pipeline_error_update env.now msg
        (apply_update j
        { status := "generating_tts", progress := some 50,
          current_activity :=
            some ("Generating AI voiceover with speed factor " ++ toString s) }) =
        apply_update (apply_update j
        { status := "generating_tts", progress := some 50,
          current_activity :=
            some ("Generating AI voiceover with speed factor " ++ toString s) })
        { status := "error", progress := some 0, error := some msg,
          finished_at := some env.now,
          current_activity := some ("Error: " ++ msg) } := by
      intro msg
      unfold pipeline_error_update
      apply update_job_status_fires
      show ("error" : String) ≠ "generating_tts"
      decide
    cases ht : env.tts with
    | error msg =>
      simp only [continue_video_processing, ht, e1, eE1 msg]
      norm_num [progress_drop_resets, List.chain'_cons, apply_update, hp]
    | ok clips =>
      by_cases hemp : clips.isEmpty
      · simp only [continue_video_processing, ht, hemp, if_true, e1,
          eE1 "Failed to generate TTS audio"]
        norm_num [progress_drop_resets, List.chain'_cons, apply_update, hp]
      · have e2 : update_job_status (apply_update j
            { status := "generating_tts", progress := some 50,
              current_activity :=
                some ("Generating AI voiceover with speed factor " ++ toString s) })
            { status := "creating_voiceover", progress := some 80,
              current_activity :=
                some "Assembling audio segments into complete voiceover" } =
            apply_update (apply_update j
            { status := "generating_tts", progress := some 50,
              current_activity :=
                some ("Generating AI voiceover with speed factor " ++ toString s) })
            { status := "creating_voiceover", progress := some 80,
              current_activity :=
                some "Assembling audio segments into complete voiceover" } := by
          apply update_job_status_fires
          show ("creating_voiceover" : String) ≠ "generating_tts"
          decide
        have eE2 : ∀ msg : String, pipeline_error_update env.now msg
            (apply_update (apply_update j
            { status := "generating_tts", progress := some 50,
              current_activity :=
                some ("Generating AI voiceover with speed factor " ++ toString s) })
            { status := "creating_voiceover", progress := some 80,
              current_activity :=
                some "Assembling audio segments into complete voiceover" }) =
            apply_update (apply_update (apply_update j
            { status := "generating_tts", progress := some 50,
              current_activity :=
                some ("Generating AI voiceover with speed factor " ++ toString s) })
            { status := "creating_voiceover", progress := some 80,
              current_activity :=
                some "Assembling audio segments into complete voiceover" })
            { status := "error", progress := some 0, error := some msg,
              finished_at := some env.now,
              current_activity := some ("Error: " ++ msg) } := by
          intro msg
          unfold pipeline_error_update
          apply update_job_status_fires
          show ("error" : String) ≠ "creating_voiceover"
          decide
        cases ha : env.assemble with
        | some msg =>
          simp only [continue_video_processing, ht, hemp, Bool.false_eq_true, if_false,
            ha, e1, e2, eE2 msg]
          norm_num [progress_drop_resets, List.chain'_cons, apply_update, hp]
        | none =>
          have e3 : update_job_status (apply_update (apply_update j
              { status := "generating_tts", progress := some 50,
                current_activity :=
                  some ("Generating AI voiceover with speed factor " ++ toString s) })
              { status := "creating_voiceover", progress := some 80,
                current_activity :=
                  some "Assembling audio segments into complete voiceover" })
              { status := "creating_video", progress := some 90,
                current_activity := some "Creating final video with voiceover" } =
              apply_update (apply_update (apply_update j
              { status := "generating_tts", progress := some 50,
                current_activity :=
                  some ("Generating AI voiceover with speed factor " ++ toString s) })
              { status := "creating_voiceover", progress := some 80,
                current_activity :=
                  some "Assembling audio segments into complete voiceover" })
              { status := "creating_video", progress := some 90,
                current_activity := some "Creating final video with voiceover" } := by
            apply update_job_status_fires
            show ("creating_video" : String) ≠ "creating_voiceover"
            decide
          have eE3 : ∀ msg : String, pipeline_error_update env.now msg
              (apply_update (apply_update (apply_update j
              { status := "generating_tts", progress := some 50,
                current_activity :=
                  some ("Generating AI voiceover with speed factor " ++ toString s) })
              { status := "creating_voiceover", progress := some 80,
                current_activity :=
                  some "Assembling audio segments into complete voiceover" })
              { status := "creating_video", progress := some 90,
                current_activity := some "Creating final video with voiceover" }) =
              apply_update (apply_update (apply_update (apply_update j
              { status := "generating_tts", progress := some 50,
                current_activity :=
                  some ("Generating AI voiceover with speed factor " ++ toString s) })
              { status := "creating_voiceover", progress := some 80,
                current_activity :=
                  some "Assembling audio segments into complete voiceover" })
              { status := "creating_video", progress := some 90,
                current_activity := some "Creating final video with voiceover" })
              { status := "error", progress := some 0, error := some msg,
                finished_at := some env.now,
                current_activity := some ("Error: " ++ msg) } := by
            intro msg
            unfold pipeline_error_update
            apply update_job_status_fires
            show ("error" : String) ≠ "creating_video"
            decide
          cases hm : env.mux with
          | some msg =>
            simp only [continue_video_processing, ht, hemp, Bool.false_eq_true, if_false,
              ha, hm, e1, e2, e3, eE3 msg]
            norm_num [progress_drop_resets, List.chain'_cons, apply_update, hp]
          | none =>
            have e4 : update_job_status (apply_update (apply_update (apply_update j
                { status := "generating_tts", progress := some 50,
                  current_activity :=
                    some ("Generating AI voiceover with speed factor " ++ toString s) })
                { status := "creating_voiceover", progress := some 80,
                  current_activity :=
                    some "Assembling audio segments into complete voiceover" })
                { status := "creating_video", progress := some 90,
                  current_activity := some "Creating final video with voiceover" })
                { status := "completed", progress := some 100,
                  finished_at := some env.now,
                  video_path := some ("/media/outputs/" ++ j.job_id ++ "_output.mp4"),
                  audio_path := some ("/media/outputs/" ++ j.job_id ++ "_audio_only.mp3"),
                  speed_factor := some s,
                  current_activity := some "Processing completed successfully" } =
                apply_update (apply_update (apply_update (apply_update j
                { status := "generating_tts", progress := some 50,
                  current_activity :=
                    some ("Generating AI voiceover with speed factor " ++ toString s) })
                { status := "creating_voiceover", progress := some 80,
                  current_activity :=
                    some "Assembling audio segments into complete voiceover" })
                { status := "creating_video", progress := some 90,
                  current_activity := some "Creating final video with voiceover" })
                { status := "completed", progress := some 100,
                  finished_at := some env.now,
                  video_path := some ("/media/outputs/" ++ j.job_id ++ "_output.mp4"),
                  audio_path := some ("/media/outputs/" ++ j.job_id ++ "_audio_only.mp3"),
                  speed_factor := some s,
                  current_activity := some "Processing completed successfully" } := by
              apply update_job_status_fires
              show ("completed" : String) ≠ "creating_video"
              decide
            simp only [continue_video_processing, ht, hemp, Bool.false_eq_true, if_false,
              ha, hm, e1, e2, e3, e4]
            norm_num [progress_drop_resets, List.chain'_cons, apply_update, hp]
  · intro env s j hj hp
    have e1 : update_job_status j
        { status := "adjusting_speed", progress := some 10,
          current_activity :=
            some ("Adjusting audio speed to " ++ toString (s * 100) ++ "%") } =
        apply_update j
        { status := "adjusting_speed", progress := some 10,
          current_activity :=
            some ("Adjusting audio speed to " ++ toString (s * 100) ++ "%") } := by
      apply update_job_status_fires_progress _ _ 10 rfl
      rw [hp]
      norm_num [ratAbs]
    have eE : ∀ msg : String, speed_error_update msg
        (apply_update j
        { status := "adjusting_speed", progress := some 10,
          current_activity :=
            some ("Adjusting audio speed to " ++ toString (s * 100) ++ "%") }) =
        apply_update (apply_update j
        { status := "adjusting_speed", progress := some 10,
          current_activity :=
            some ("Adjusting audio speed to " ++ toString (s * 100) ++ "%") })
        { status := "error", progress := some 0,
          error := some ("Speed adjustment failed: " ++ msg),
          current_activity := some ("Error: Speed adjustment failed - " ++ msg) } := by
      intro msg
      unfold speed_error_update
      apply update_job_status_fires
      show ("error" : String) ≠ "adjusting_speed"
      decide
    cases hx : env.audioFx with
    | some msg =>
      simp only [process_speed_adjustment, hx, e1, eE msg]
      norm_num [progress_drop_resets, List.chain'_cons, apply_update, hp]
    | none =>
      have e2 : update_job_status (apply_update j
          { status := "adjusting_speed", progress := some 10,
            current_activity :=
              some ("Adjusting audio speed to " ++ toString (s * 100) ++ "%") })
          { status := "creating_adjusted_video", progress := some 50,
            current_activity :=
              some "Creating new video with adjusted audio speed" } =
          apply_update (apply_update j
          { status := "adjusting_speed", progress := some 10,
            current_activity :=
              some ("Adjusting audio speed to " ++ toString (s * 100) ++ "%") })
          { status := "creating_adjusted_video", progress := some 50,
            current_activity :=
              some "Creating new video with adjusted audio speed" } := by
        apply update_job_status_fires
        show ("creating_adjusted_video" : String) ≠ "adjusting_speed"
        decide
      have eE2 : ∀ msg : String, speed_error_update msg
          (apply_update (apply_update j
          { status := "adjusting_speed", progress := some 10,
            current_activity :=
              some ("Adjusting audio speed to " ++ toString (s * 100) ++ "%") })
          { status := "creating_adjusted_video", progress := some 50,
            current_activity :=
              some "Creating new video with adjusted audio speed" }) =
          apply_update (apply_update (apply_update j
          { status := "adjusting_speed", progress := some 10,
            current_activity :=
              some ("Adjusting audio speed to " ++ toString (s * 100) ++ "%") })
          { status := "creating_adjusted_video", progress := some 50,
            current_activity :=
              some "Creating new video with adjusted audio speed" })
          { status := "error", progress := some 0,
            error := some ("Speed adjustment failed: " ++ msg),
            current_activity := some ("Error: Speed adjustment failed - " ++ msg) } := by
        intro msg
        unfold speed_error_update
        apply update_job_status_fires
        show ("error" : String) ≠ "creating_adjusted_video"
        decide
      cases hv : env.vid with
      | some msg =>
        simp only [process_speed_adjustment, hx, hv, e1, e2, eE2 msg]
        norm_num [progress_drop_resets, List.chain'_cons, apply_update, hp]
      | none =>
        have e3 : update_job_status (apply_update (apply_update j
            { status := "adjusting_speed", progress := some 10,
              current_activity :=
                some ("Adjusting audio speed to " ++ toString (s * 100) ++ "%") })
            { status := "creating_adjusted_video", progress := some 50,
              current_activity :=
                some "Creating new video with adjusted audio speed" })
            { status := "completed", progress := some 100,
              audio_path := some ("/media/outputs/" ++ j.job_id ++ "_speed_audio.mp3"),
              video_path := some ("/media/outputs/" ++ j.job_id ++ "_speed_video.mp4"),
              speed_factor := some s,
              current_activity := some "Speed adjustment completed successfully" } =
            apply_update (apply_update (apply_update j
            { status := "adjusting_speed", progress := some 10,
              current_activity :=
                some ("Adjusting audio speed to " ++ toString (s * 100) ++ "%") })
            { status := "creating_adjusted_video", progress := some 50,
              current_activity :=
                some "Creating new video with adjusted audio speed" })
            { status := "completed", progress := some 100,
              audio_path := some ("/media/outputs/" ++ j.job_id ++ "_speed_audio.mp3"),
              video_path := some ("/media/outputs/" ++ j.job_id ++ "_speed_video.mp4"),
              speed_factor := some s,
              current_activity := some "Speed adjustment completed successfully" } := by
          apply update_job_status_fires
          show ("completed" : String) ≠ "creating_adjusted_video"
          decide
        simp only [process_speed_adjustment, hx, hv, e1, e2, e3]
        norm_num [progress_drop_resets, List.chain'_cons, apply_update, hp]
  · intro envF j s hst hsp ha hv
    have eA : update_job_status j { status := "adjusting_speed", progress := some 0 } =
        apply_update j { status := "adjusting_speed", progress := some 0 } := by
      apply update_job_status_fires
      show ("adjusting_speed" : String) ≠ j.status
      rw [hst]; decide
    unfold adjust_audio_speed
    dsimp only
    rw [if_neg (by simp [hst]), if_neg (by intro hc; linarith), if_neg (by simp [ha]),
      if_neg (by simp [hv]), eA]
    exact ⟨rfl, rfl⟩
  · intro c j h
    exact send_batched_updates_decrease c j h
  · intro c m st p h
    exact flushProgress_gt_watermark c m st p h
  · intro c j
    exact send_batched_updates_watermark_mono c j
  · intro j hp
    exact websocket_attach_progress_mono j hp
  · intro j m h
    exact ws_update_transcription_decrease j m h

/-- Claim C5, amended, witness: the fixture runs, the speed-adjustment
entry, the watermark-lagging flush and the WebSocket confirmation of the
completed job instantiate the parts at concrete inputs. -/
theorem C5_progress_monotone_until_reset_witness :
    progress_drop_resets (uploadedJob :: process_video envNoSpeech 1 uploadedJob) ∧
    progress_drop_resets
      (confirmedJob :: continue_video_processing contEnvOk 1 confirmedJob) ∧
    (((adjust_audio_speed ⟨true⟩ (some completedJob) (mkRat 3 2)).1.map
      fun r => r.progress) = some 0) ∧
    (∃ m p,
      (({ last_progress := 0, batched_messages := ["Loading video file..."] } :
        CaptureState)).batched_messages.getLast? = some m ∧
      flushProgress { last_progress := 0, batched_messages := ["Loading video file..."] }
        m extractingJob.status = some p ∧
      (({ last_progress := 0, batched_messages := ["Loading video file..."] } :
        CaptureState)).last_progress < p ∧
      p < extractingJob.progress) ∧
    uploadedJob.progress ≤ (websocket_attach uploadedJob).1.progress ∧
    ((ws_update_transcription completedJob { transcription := some [seg1] }).progress = 45 ∧
      45 < completedJob.progress) := by
  refine ⟨?_, ?_, ?_, ?_, ?_, ?_⟩
  · exact C5_progress_monotone_until_reset.1 envNoSpeech 1 uploadedJob (by decide) (by decide)
  · exact C5_progress_monotone_until_reset.2.1 contEnvOk 1 confirmedJob (by decide) (by decide)
  · exact (C5_progress_monotone_until_reset.2.2.2.1 ⟨true⟩ completedJob (mkRat 3 2)
      (by decide) (by decide) (by decide) (by decide)).2
  · refine C5_progress_monotone_until_reset.2.2.2.2.1
      { last_progress := 0, batched_messages := ["Loading video file..."] } extractingJob ?_
    rw [flush_regression_example]
    decide
  · exact C5_progress_monotone_until_reset.2.2.2.2.2.2.2.1 uploadedJob (by decide)
  · exact C5_progress_monotone_until_reset.2.2.2.2.2.2.2.2 completedJob
      { transcription := some [seg1] } (by decide)

end AutoDubber
